import Mathlib

/-!
# Verification of auth-middleware-for-actix-web (authfix)

Shallow embedding of the core of the `auth-middleware-for-actix-web` crate:

* the MFA random-code challenge (`src/multifactor/send_random_code.rs`):
  `RandomCode`, `MfaRandomCode::generate_code` and `MfaRandomCode::check_code`
  over an explicit session key/value store;
* the authenticated-principal token (`src/lib.rs`): `AuthToken` with its
  shared mutable validity flag, modelled as a heap of token cells addressed
  by handles, plus its `FromRequest` extraction;
* `UnauthorizedError` and its HTTP response rendering (`src/lib.rs`);
* `PathMatcher`, modelled from the spec (its source file is not part of the
  repository slice under verification).

`SystemTime` is modelled as a `Nat` timestamp; session values are an explicit
sum so that a failed deserialization of the stored code is representable.
Effects (session reads/writes/purge) are explicit state passing on `Session`.
-/

namespace Authfix

/-- Structure `RandomCode` from `send_random_code.rs`: opaque string value plus an
absolute expiry timestamp (`SystemTime` modelled as `Nat`). -/
structure RandomCode where
  value : String
  valid_until : Nat
  deriving DecidableEq

/-- Constructor `RandomCode::new` from `send_random_code.rs`. -/
def RandomCode.new (value : String) (valid_until : Nat) : RandomCode :=
  { value := value, valid_until := valid_until }

/-- A value held in the session store.  `code` is a stored `RandomCode`
(serialized by the store); `str` is any other serialized value, e.g. the
`privateValue` string the integration tests put next to the code.  Reading a
`str` slot at the code's key models a deserialization failure. -/
inductive SessionValue where
  | code (c : RandomCode) : SessionValue
  | str (s : String) : SessionValue
  deriving DecidableEq

/-- The external session key/value store (actix `Session`), keyed by strings. -/
abbrev Session := List (String × SessionValue)

/-- Constant `MFA_RANDOM_CODE_KEY` from `send_random_code.rs`. -/
def MFA_RANDOM_CODE_KEY : String := "mfa_random_code"

/-- Session-store `insert(key, value)`: overwrites the value stored under
`key`, leaving every other entry in place. -/
def sessionInsert (s : Session) (k : String) (v : SessionValue) : Session :=
  match s with
  | [] => [(k, v)]
  | (k2, v2) :: rest =>
      if k2 = k then (k, v) :: rest else (k2, v2) :: sessionInsert rest k v

/-- Session-store raw lookup of the value stored under `k`. -/
def sessionGet (s : Session) (k : String) : Option SessionValue :=
  match s with
  | [] => none
  | (k2, v) :: rest => if k2 = k then some v else sessionGet rest k

/-- Session-store `purge()`: discards the entire session, every key/value. -/
def sessionPurge (_s : Session) : Session := []

/-- Reading `session.get::<RandomCode>(MFA_RANDOM_CODE_KEY)`: `Except.error` when the
stored value does not deserialize as a `RandomCode`, `Except.ok none` when the
slot is empty, `Except.ok (some c)` otherwise. -/
def sessionGetRandomCode (s : Session) : Except Unit (Option RandomCode) :=
  match sessionGet s MFA_RANDOM_CODE_KEY with
  | none => Except.ok none
  | some (SessionValue.code c) => Except.ok (some c)
  | some (SessionValue.str _) => Except.error ()

/-- Error type `GenerateCodeError` (declared in `multifactor/mod.rs`, used in
`send_random_code.rs` via `GenerateCodeError::new_with_cause`): a message
wrapping the underlying cause, the cause rendered as a string. -/
structure GenerateCodeError where
  message : String
  cause : String
  deriving DecidableEq

/-- Constructor `GenerateCodeError::new_with_cause(msg, e)`. -/
def GenerateCodeError.new_with_cause (msg : String) (cause : String) :
    GenerateCodeError :=
  { message := msg, cause := cause }

/-- Error type `CheckCodeError` (declared in `multifactor/mod.rs`): the three variants
used by `send_random_code.rs`. -/
inductive CheckCodeError where
  | InvalidCode : CheckCodeError
  | TimeIsUp (msg : String) : CheckCodeError
  | UnknownError (msg : String) : CheckCodeError
  deriving DecidableEq

/-- Helper `cleanup_and_unknown_error` from `send_random_code.rs`: purge the session
and build a `GenerateCodeError` wrapping the cause. -/
def cleanup_and_unknown_error (session : Session) (msg : String) (e : String) :
    Session × GenerateCodeError :=
  (sessionPurge session, GenerateCodeError.new_with_cause msg e)

/-- Helper `cleanup_and_unknown_code_error` from `send_random_code.rs`. -/
def cleanup_and_unknown_code_error (session : Session) (msg : String) :
    Session × CheckCodeError :=
  (sessionPurge session, CheckCodeError.UnknownError msg)

/-- Helper `cleanup_and_time_is_up_error` from `send_random_code.rs`. -/
def cleanup_and_time_is_up_error (session : Session) :
    Session × CheckCodeError :=
  (sessionPurge session, CheckCodeError.TimeIsUp "Code is no longer valid")

/-- Method `MfaRandomCode::generate_code` from `send_random_code.rs`.  The injected
`code_generator` is a zero-argument function; the outcome of the session
write (serialization by the external store) and of `CodeSender::send_code`
are passed in as explicit results of the external collaborators.  Returns the
resulting session together with the `Result`. -/
def generate_code (code_generator : Unit → RandomCode)
    (insertResult : Except String Unit)
    (sendCode : RandomCode → Except String Unit)
    (session : Session) : Session × Except GenerateCodeError Unit :=
  let random_code := code_generator ()
  match insertResult with
  | Except.error e =>
      let (s, err) :=
        cleanup_and_unknown_error session "Could not insert mfa code into session" e
      (s, Except.error err)
  | Except.ok _ =>
      let session1 := sessionInsert session MFA_RANDOM_CODE_KEY
        (SessionValue.code random_code)
      match sendCode random_code with
      | Except.error e =>
          let (s, err) :=
            cleanup_and_unknown_error session1 "Could not send code to user" e
          (s, Except.error err)
      | Except.ok _ => (session1, Except.ok ())

/-- Method `MfaRandomCode::check_code` from `send_random_code.rs`: load the pending
code, check expiry (`now >= valid_until` fails), then compare the candidate
against the stored value.  `now` stands for `SystemTime::now()`.  Returns the
resulting session together with the `Result`. -/
def check_code (code : String) (now : Nat) (session : Session) :
    Session × Except CheckCodeError Unit :=
  match sessionGetRandomCode session with
  | Except.error _ =>
      let (s, err) :=
        cleanup_and_unknown_code_error session "Could not load random code from session"
      (s, Except.error err)
  | Except.ok (some random_code) =>
      if now ≥ random_code.valid_until then
        let (s, err) := cleanup_and_time_is_up_error session
        (s, Except.error err)
      else if code ≠ random_code.value then
        (session, Except.error CheckCodeError.InvalidCode)
      else
        (session, Except.ok ())
  | Except.ok none =>
      let (s, err) :=
        cleanup_and_unknown_code_error session "No random code in session"
      (s, Except.error err)

/-- Structure `AuthTokenInner` from `lib.rs`: the resolved principal and the shared
mutable validity flag. -/
structure AuthTokenInner (U : Type) where
  user : U
  is_valid : Bool

/-- The heap of `Rc<RefCell<AuthTokenInner<U>>>` cells.  An `AuthToken` handle
is an index into this heap; handles created by `AuthToken::from_ref` share
the index (they clone the `Rc`, not the cell). -/
abbrev TokenStore (U : Type) := List (AuthTokenInner U)

/-- Method `AuthToken::new(user)`: allocate a fresh cell with `is_valid := true`;
returns the grown heap and the new handle. -/
def tokenNew {U : Type} (store : TokenStore U) (u : U) : TokenStore U × Nat :=
  (store ++ [{ user := u, is_valid := true }], store.length)

/-- Method `AuthToken::is_valid(&self)`: read the shared flag through a handle.  A
dangling handle (no cell) reads as invalid. -/
def tokenIsValid {U : Type} (store : TokenStore U) (i : Nat) : Bool :=
  match store.get? i with
  | some inner => inner.is_valid
  | none => false

/-- Method `AuthToken::invalidate(&self)`: set the shared flag of the cell behind
the handle to `false`. -/
def tokenInvalidate {U : Type} : TokenStore U → Nat → TokenStore U
  | [], _ => []
  | inner :: rest, 0 => { inner with is_valid := false } :: rest
  | inner :: rest, Nat.succ n => inner :: tokenInvalidate rest n

/-- The operations the crate exposes on `AuthToken` handles that can touch
the heap: allocate a token, invalidate through a handle, or clone a handle
(`from_ref`, which leaves every cell untouched). -/
inductive TokenOp (U : Type) where
  | new (u : U) : TokenOp U
  | invalidate (i : Nat) : TokenOp U
  | fromRef (i : Nat) : TokenOp U

/-- Effect of one `AuthToken` operation on the heap. -/
def tokenStep {U : Type} (store : TokenStore U) : TokenOp U → TokenStore U
  | TokenOp.new u => (tokenNew store u).1
  | TokenOp.invalidate i => tokenInvalidate store i
  | TokenOp.fromRef _ => store

/-- Effect of a sequence of `AuthToken` operations on the heap. -/
def tokenRun {U : Type} (store : TokenStore U) (ops : List (TokenOp U)) :
    TokenStore U :=
  ops.foldl tokenStep store

/-- Structure `UnauthorizedError` from `lib.rs`. -/
structure UnauthorizedError where
  message : String
  deriving DecidableEq

/-- Constructor `UnauthorizedError::new(message)`. -/
def UnauthorizedError.new (message : String) : UnauthorizedError :=
  { message := message }

/-- Impl `Default for UnauthorizedError`. -/
def UnauthorizedError.default : UnauthorizedError :=
  { message := "Not authorized" }

/-- Impl `ResponseError::status_code for UnauthorizedError`: always 401. -/
def UnauthorizedError.status_code (_e : UnauthorizedError) : Nat := 401

/-- A JSON value as far as this crate produces one: `HttpResponse::json` on a
`String` serializes it as a JSON string. -/
inductive JsonValue where
  | str (s : String) : JsonValue
  deriving DecidableEq

/-- The observable HTTP response produced by the crate's error type. -/
structure HttpResponseModel where
  status : Nat
  body : JsonValue
  deriving DecidableEq

/-- Impl `ResponseError::error_response for UnauthorizedError`:
`HttpResponse::Unauthorized().json(self.message.clone())`. -/
def UnauthorizedError.error_response (e : UnauthorizedError) : HttpResponseModel :=
  { status := 401, body := JsonValue.str e.message }

/-- Impl `FromRequest for AuthToken<U>` (`from_request` in `lib.rs`): the request
extensions either hold an `AuthToken` handle or not; when present the
extraction returns `AuthToken::from_ref` of it (the same heap index), when
absent it fails with `UnauthorizedError::default()`. -/
def from_request (extensions : Option Nat) : Except UnauthorizedError Nat :=
  match extensions with
  | some token => Except.ok token
  | none => Except.error UnauthorizedError.default

/-- Modelled from the spec: `PathMatcher` (its source file `middleware.rs` is
not part of the repository slice).  Split a path into `/`-separated segments
(matching is "prefix/segment based"). -/
def splitSegs : List Char → List (List Char)
  | [] => [[]]
  | c :: cs =>
      let r := splitSegs cs
      if c = '/' then [] :: r
      else
        match r with
        | [] => [[c]]
        | s :: rest => (c :: s) :: rest

/-- Modelled from the spec: segment-wise pattern match, "case-sensitive,
exact-segment except for a wildcard suffix" — a trailing `*` segment of the
pattern matches any remainder of the path. -/
def segsMatch : List (List Char) → List (List Char) → Bool
  | [], [] => true
  | [['*']], _ => true
  | p :: ps, q :: qs => p = q && segsMatch ps qs
  | _, _ => false

/-- Modelled from the spec: whether one configured glob-like pattern matches
a request path. -/
def patternMatches (pattern path : String) : Bool :=
  segsMatch (splitSegs pattern.data) (splitSegs path.data)

/-- Modelled from the spec: `PathMatcher` holds the configured pattern list
and the `invert` flag. -/
structure PathMatcher where
  patterns : List String
  invert : Bool

/-- Modelled from the spec: `PathMatcher::is_protected(path)` — with
`invert = false` the listed patterns are the protected set, with
`invert = true` they are the exempt set. -/
def PathMatcher.is_protected (m : PathMatcher) (path : String) : Bool :=
  let matched := m.patterns.any fun p => patternMatches p path
  if m.invert then !matched else matched

/-! ## Theorems about the MFA challenge (`check_code`, `generate_code`) -/

/-- C1: for every candidate and every pending `RandomCode` stored in session
state, if `now` is at or past the stored expiry then `check_code` fails with
`CheckCodeError::TimeIsUp` and purges the whole session challenge state; the
candidate is arbitrary, so this holds in particular when it equals the stored
code value (expiry is checked before the value comparison). -/
theorem check_code_expired_time_is_up (cand : String) (sess : Session)
    (c : RandomCode) (now : Nat)
    (hget : sessionGetRandomCode sess = Except.ok (some c))
    (hexp : now ≥ c.valid_until) :
    check_code cand now sess =
      (sessionPurge sess,
        Except.error (CheckCodeError.TimeIsUp "Code is no longer valid")) ∧
    (check_code cand now sess).1 = [] := by
  have h : check_code cand now sess =
      (sessionPurge sess,
        Except.error (CheckCodeError.TimeIsUp "Code is no longer valid")) := by
    simp [check_code, hget, hexp, cleanup_and_time_is_up_error]
  exact ⟨h, by rw [h]; rfl⟩

/-- C1 witness: a session holding the code `"123abc"` expiring at time 5,
checked at time 5 with the matching candidate `"123abc"`, still fails with
`TimeIsUp` and the session is purged. -/
theorem check_code_expired_time_is_up_witness :
    check_code "123abc" 5
        [(MFA_RANDOM_CODE_KEY, SessionValue.code (RandomCode.new "123abc" 5))] =
      ([], Except.error (CheckCodeError.TimeIsUp "Code is no longer valid")) ∧
    (check_code "123abc" 5
        [(MFA_RANDOM_CODE_KEY, SessionValue.code (RandomCode.new "123abc" 5))]).1 = [] :=
  check_code_expired_time_is_up "123abc"
    [(MFA_RANDOM_CODE_KEY, SessionValue.code (RandomCode.new "123abc" 5))]
    (RandomCode.new "123abc" 5) 5 (by rfl) (by decide)

/-- C2: for every unexpired pending code, a mismatched candidate fails with
`CheckCodeError::InvalidCode` without purging: the session is returned
unchanged and the stored code is still retrievable. -/
theorem check_code_invalid_code_no_purge (cand : String) (sess : Session)
    (c : RandomCode) (now : Nat)
    (hget : sessionGetRandomCode sess = Except.ok (some c))
    (hfresh : now < c.valid_until)
    (hne : cand ≠ c.value) :
    check_code cand now sess = (sess, Except.error CheckCodeError.InvalidCode) ∧
    sessionGetRandomCode (check_code cand now sess).1 = Except.ok (some c) := by
  have h : check_code cand now sess =
      (sess, Except.error CheckCodeError.InvalidCode) := by
    simp [check_code, hget, Nat.not_le.mpr hfresh, hne]
  exact ⟨h, by rw [h]; exact hget⟩

/-- C2 witness: a wrong candidate against the unexpired code `"123abc"`
returns `InvalidCode` and leaves the stored code in place. -/
theorem check_code_invalid_code_no_purge_witness :
    check_code "oops wrong code" 1
        [(MFA_RANDOM_CODE_KEY, SessionValue.code (RandomCode.new "123abc" 9))] =
      ([(MFA_RANDOM_CODE_KEY, SessionValue.code (RandomCode.new "123abc" 9))],
        Except.error CheckCodeError.InvalidCode) ∧
    sessionGetRandomCode
        (check_code "oops wrong code" 1
          [(MFA_RANDOM_CODE_KEY, SessionValue.code (RandomCode.new "123abc" 9))]).1 =
      Except.ok (some (RandomCode.new "123abc" 9)) :=
  check_code_invalid_code_no_purge "oops wrong code"
    [(MFA_RANDOM_CODE_KEY, SessionValue.code (RandomCode.new "123abc" 9))]
    (RandomCode.new "123abc" 9) 1 (by rfl) (by decide) (by decide)

/-- C9: for every unexpired pending code, the exactly matching candidate
succeeds with `Ok(())` and the session is left unchanged — the pending code
remains stored in its slot, not consumed or purged by `check_code` itself. -/
theorem check_code_success_leaves_code (cand : String) (sess : Session)
    (c : RandomCode) (now : Nat)
    (hget : sessionGetRandomCode sess = Except.ok (some c))
    (hfresh : now < c.valid_until)
    (heq : cand = c.value) :
    check_code cand now sess = (sess, Except.ok ()) ∧
    sessionGetRandomCode (check_code cand now sess).1 = Except.ok (some c) := by
  have h : check_code cand now sess = (sess, Except.ok ()) := by
    simp [check_code, hget, Nat.not_le.mpr hfresh, heq]
  exact ⟨h, by rw [h]; exact hget⟩

/-- C9 witness: the exact candidate `"123abc"` before expiry succeeds and the
code is still stored afterwards. -/
theorem check_code_success_leaves_code_witness :
    check_code "123abc" 1
        [(MFA_RANDOM_CODE_KEY, SessionValue.code (RandomCode.new "123abc" 9))] =
      ([(MFA_RANDOM_CODE_KEY, SessionValue.code (RandomCode.new "123abc" 9))],
        Except.ok ()) ∧
    sessionGetRandomCode
        (check_code "123abc" 1
          [(MFA_RANDOM_CODE_KEY, SessionValue.code (RandomCode.new "123abc" 9))]).1 =
      Except.ok (some (RandomCode.new "123abc" 9)) :=
  check_code_success_leaves_code "123abc"
    [(MFA_RANDOM_CODE_KEY, SessionValue.code (RandomCode.new "123abc" 9))]
    (RandomCode.new "123abc" 9) 1 (by rfl) (by decide) (by rfl)

/-- C6: when loading the pending code fails (stored value does not
deserialize) or no code is stored (e.g. `generate_code` was never called),
`check_code` purges the session challenge state and fails with
`CheckCodeError::UnknownError`. -/
theorem check_code_missing_unknown_error (cand : String) (now : Nat)
    (sess : Session) :
    (sessionGetRandomCode sess = Except.error () →
      check_code cand now sess =
        ([], Except.error
          (CheckCodeError.UnknownError "Could not load random code from session"))) ∧
    (sessionGetRandomCode sess = Except.ok none →
      check_code cand now sess =
        ([], Except.error
          (CheckCodeError.UnknownError "No random code in session"))) := by
  constructor
  · intro h
    simp [check_code, h, cleanup_and_unknown_code_error, sessionPurge]
  · intro h
    simp [check_code, h, cleanup_and_unknown_code_error, sessionPurge]

/-- C6 witness: `check_code` on an empty session (no prior `generate_code`)
fails with `UnknownError`. -/
theorem check_code_missing_unknown_error_witness :
    check_code "123abc" 0 [] =
      ([], Except.error
        (CheckCodeError.UnknownError "No random code in session")) :=
  (check_code_missing_unknown_error "123abc" 0 []).2 (by rfl)

/-- C3: if the session write of the fresh code fails, or the subsequent
`CodeSender::send_code` fails, `generate_code` purges the session challenge
state (the purged session holds no pending code) and returns a
`GenerateCodeError` wrapping the underlying cause; if both succeed it returns
`Ok(())`. -/
theorem generate_code_fail_closed (gen : Unit → RandomCode)
    (sendCode : RandomCode → Except String Unit) (sess : Session) (e : String) :
    (generate_code gen (Except.error e) sendCode sess =
      (sessionPurge sess,
        Except.error
          (GenerateCodeError.new_with_cause "Could not insert mfa code into session" e))) ∧
    (sendCode (gen ()) = Except.error e →
      generate_code gen (Except.ok ()) sendCode sess =
        (sessionPurge
            (sessionInsert sess MFA_RANDOM_CODE_KEY (SessionValue.code (gen ()))),
          Except.error
            (GenerateCodeError.new_with_cause "Could not send code to user" e))) ∧
    (sendCode (gen ()) = Except.ok () →
      generate_code gen (Except.ok ()) sendCode sess =
        (sessionInsert sess MFA_RANDOM_CODE_KEY (SessionValue.code (gen ())),
          Except.ok ())) ∧
    sessionGetRandomCode (sessionPurge sess) = Except.ok none := by
  refine ⟨?_, ?_, ?_, rfl⟩
  · simp [generate_code, cleanup_and_unknown_error]
  · intro h
    simp [generate_code, h, cleanup_and_unknown_error]
  · intro h
    simp [generate_code, h]

/-- C3 witness: with a session write that succeeds and a sender that fails,
`generate_code` over a session already holding an unrelated value purges
everything and wraps the sender's error; the same call with a working sender
returns `Ok(())`. -/
theorem generate_code_fail_closed_witness :
    (generate_code (fun _ => RandomCode.new "123abc" 9) (Except.ok ())
        (fun _ => Except.error "smtp down")
        [("privateValue", SessionValue.str "some value")] =
      ([], Except.error
        (GenerateCodeError.new_with_cause "Could not send code to user" "smtp down"))) ∧
    (generate_code (fun _ => RandomCode.new "123abc" 9)
        (Except.error "serde failure")
        (fun _ => Except.error "smtp down")
        [("privateValue", SessionValue.str "some value")] =
      ([], Except.error
        (GenerateCodeError.new_with_cause "Could not insert mfa code into session"
          "serde failure"))) := by
  constructor
  · exact (generate_code_fail_closed (fun _ => RandomCode.new "123abc" 9)
      (fun _ => Except.error "smtp down")
      [("privateValue", SessionValue.str "some value")] "smtp down").2.1 (by rfl)
  · exact (generate_code_fail_closed (fun _ => RandomCode.new "123abc" 9)
      (fun _ => Except.error "smtp down")
      [("privateValue", SessionValue.str "some value")] "serde failure").1

/-- C10: every failure-path purge in `generate_code` and `check_code`
(session write failure, send failure, load failure, missing code, expired
code) is the session store's `purge`, which discards the entire session: a
purged session yields `none` for every key, including keys unrelated to the
pending challenge. -/
theorem purge_discards_entire_session (sess : Session) (cand : String)
    (now : Nat) (gen : Unit → RandomCode)
    (sendCode : RandomCode → Except String Unit) (e : String) :
    (∀ k, sessionGet (sessionPurge sess) k = none) ∧
    (generate_code gen (Except.error e) sendCode sess).1 = sessionPurge sess ∧
    (sendCode (gen ()) = Except.error e →
      (generate_code gen (Except.ok ()) sendCode sess).1 =
        sessionPurge
          (sessionInsert sess MFA_RANDOM_CODE_KEY (SessionValue.code (gen ())))) ∧
    (sessionGetRandomCode sess = Except.error () →
      (check_code cand now sess).1 = sessionPurge sess) ∧
    (sessionGetRandomCode sess = Except.ok none →
      (check_code cand now sess).1 = sessionPurge sess) ∧
    (∀ c : RandomCode, sessionGetRandomCode sess = Except.ok (some c) →
      now ≥ c.valid_until → (check_code cand now sess).1 = sessionPurge sess) := by
  refine ⟨fun k => rfl, ?_, ?_, ?_, ?_, ?_⟩
  · simp [generate_code, cleanup_and_unknown_error]
  · intro h
    simp [generate_code, h, cleanup_and_unknown_error]
  · intro h
    simp [check_code, h, cleanup_and_unknown_code_error]
  · intro h
    simp [check_code, h, cleanup_and_unknown_code_error]
  · intro c hget hexp
    simp [check_code, hget, hexp, cleanup_and_time_is_up_error]

/-- C10 witness: the expired-code purge path on a session that also holds an
unrelated `privateValue` entry leaves a session with no entry under any key
— in particular the unrelated key is gone too. -/
theorem purge_discards_entire_session_witness :
    sessionGet
        (sessionPurge
          [("privateValue", SessionValue.str "some value"),
            (MFA_RANDOM_CODE_KEY, SessionValue.code (RandomCode.new "123abc" 5))])
        "privateValue" = none ∧
    (check_code "123abc" 5
        [("privateValue", SessionValue.str "some value"),
          (MFA_RANDOM_CODE_KEY, SessionValue.code (RandomCode.new "123abc" 5))]).1 =
      sessionPurge
        [("privateValue", SessionValue.str "some value"),
          (MFA_RANDOM_CODE_KEY, SessionValue.code (RandomCode.new "123abc" 5))] := by
  constructor
  · exact (purge_discards_entire_session
      [("privateValue", SessionValue.str "some value"),
        (MFA_RANDOM_CODE_KEY, SessionValue.code (RandomCode.new "123abc" 5))]
      "123abc" 5 (fun _ => RandomCode.new "123abc" 5)
      (fun _ => Except.ok ()) "e").1 "privateValue"
  · exact (purge_discards_entire_session
      [("privateValue", SessionValue.str "some value"),
        (MFA_RANDOM_CODE_KEY, SessionValue.code (RandomCode.new "123abc" 5))]
      "123abc" 5 (fun _ => RandomCode.new "123abc" 5)
      (fun _ => Except.ok ()) "e").2.2.2.2.2 (RandomCode.new "123abc" 5)
      (by rfl) (by decide)

/-! ## Theorems about `AuthToken` -/

/-- Invalidating through a handle makes that handle (and hence every handle
sharing the same cell index) read `is_valid = false`. -/
theorem tokenInvalidate_isValid_self {U : Type} :
    ∀ (s : TokenStore U) (i : Nat), tokenIsValid (tokenInvalidate s i) i = false := by
  intro s
  induction s with
  | nil => intro i; cases i <;> rfl
  | cons inner rest ih =>
      intro i
      cases i with
      | zero => rfl
      | succ n =>
          show tokenIsValid (inner :: tokenInvalidate rest n) (n + 1) = false
          simpa [tokenIsValid, List.get?] using ih n

/-- Method `invalidate` never turns a flag on: a handle valid after an `invalidate`
was already valid before it. -/
theorem tokenInvalidate_isValid_mono {U : Type} :
    ∀ (s : TokenStore U) (j i : Nat),
      tokenIsValid (tokenInvalidate s j) i = true → tokenIsValid s i = true := by
  intro s
  induction s with
  | nil => intro j i h; cases j <;> exact h
  | cons inner rest ih =>
      intro j i h
      cases j with
      | zero =>
          cases i with
          | zero => simp [tokenIsValid, tokenInvalidate, List.get?] at h
          | succ n => exact h
      | succ m =>
          cases i with
          | zero => exact h
          | succ n =>
              have h2 : tokenIsValid (tokenInvalidate rest m) n = true := by
                simpa [tokenIsValid, tokenInvalidate, List.get?] using h
              simpa [tokenIsValid, List.get?] using ih m n h2

/-- Method `invalidate` preserves the length of the heap. -/
theorem tokenInvalidate_length {U : Type} :
    ∀ (s : TokenStore U) (j : Nat), (tokenInvalidate s j).length = s.length := by
  intro s
  induction s with
  | nil => intro j; cases j <;> rfl
  | cons inner rest ih =>
      intro j
      cases j with
      | zero => rfl
      | succ m => simpa [tokenInvalidate] using ih m

/-- One `AuthToken` operation neither shrinks the heap nor revives an
invalidated cell. -/
theorem tokenStep_preserves_false {U : Type} (s : TokenStore U)
    (op : TokenOp U) (i : Nat) (hi : i < s.length)
    (h : tokenIsValid s i = false) :
    tokenIsValid (tokenStep s op) i = false ∧ i < (tokenStep s op).length := by
  cases op with
  | new u =>
      refine ⟨?_, ?_⟩
      · show tokenIsValid (s ++ [AuthTokenInner.mk u true]) i = false
        rw [tokenIsValid, List.get?_append hi]
        exact h
      · show i < (s ++ [AuthTokenInner.mk u true]).length
        simp only [List.length_append]
        omega
  | invalidate j =>
      refine ⟨?_, ?_⟩
      · cases hv : tokenIsValid (tokenInvalidate s j) i with
        | false => exact hv
        | true =>
            exact absurd (tokenInvalidate_isValid_mono s j i hv) (by simp [h])
      · show i < (tokenInvalidate s j).length
        rw [tokenInvalidate_length]
        exact hi
  | fromRef j => exact ⟨h, hi⟩

/-- C4: invalidating any `AuthToken` handle makes `is_valid` read `false`
through every handle sharing the same underlying cell (same heap index), and
no sequence of `AuthToken` operations (allocation, `from_ref` cloning,
further invalidations) ever turns `is_valid` back to `true` once it is
`false`. -/
theorem authToken_invalidate_one_way {U : Type} (store : TokenStore U)
    (i : Nat) (ops : List (TokenOp U)) (hi : i < store.length) :
    tokenIsValid (tokenInvalidate store i) i = false ∧
    (tokenIsValid store i = false →
      tokenIsValid (tokenRun store ops) i = false) := by
  refine ⟨tokenInvalidate_isValid_self store i, ?_⟩
  intro h0
  have main : ∀ (l : List (TokenOp U)) (s : TokenStore U),
      i < s.length → tokenIsValid s i = false →
      tokenIsValid (tokenRun s l) i = false := by
    intro l
    induction l with
    | nil => intro s _ h; exact h
    | cons op rest ih =>
        intro s hs h
        have step := tokenStep_preserves_false s op i hs h
        exact ih (tokenStep s op) step.2 step.1
  exact main ops store hi h0

/-- C4 witness: a single-cell heap whose flag is already off stays off under
an `invalidate`, a `from_ref` clone and a fresh allocation. -/
theorem authToken_invalidate_one_way_witness :
    tokenIsValid (tokenInvalidate [AuthTokenInner.mk (42 : Nat) false] 0) 0 = false ∧
    tokenIsValid
      (tokenRun [AuthTokenInner.mk (42 : Nat) false]
        [TokenOp.invalidate 0, TokenOp.fromRef 0, TokenOp.new 7]) 0 = false :=
  let t := authToken_invalidate_one_way [AuthTokenInner.mk (42 : Nat) false] 0
    [TokenOp.invalidate 0, TokenOp.fromRef 0, TokenOp.new 7] (by decide)
  ⟨t.1, t.2 (by decide)⟩

/-- C7: extracting `AuthToken<U>` from a request whose extensions hold no
token fails with the default `UnauthorizedError` (which carries HTTP status
401); when a token handle is present, extraction succeeds and yields a handle
sharing the same cell, hence the same principal and validity state. -/
theorem authToken_from_request_extraction {U : Type} (store : TokenStore U)
    (i : Nat) :
    from_request none = Except.error UnauthorizedError.default ∧
    UnauthorizedError.status_code UnauthorizedError.default = 401 ∧
    from_request (some i) = Except.ok i ∧
    (∀ j, from_request (some i) = Except.ok j →
      tokenIsValid store j = tokenIsValid store i) := by
  refine ⟨rfl, rfl, rfl, ?_⟩
  intro j hj
  cases hj
  rfl

/-- C7 witness: extraction over a concrete one-cell heap — failure on empty
extensions, success with the shared handle otherwise. -/
theorem authToken_from_request_extraction_witness :
    from_request none = Except.error UnauthorizedError.default ∧
    UnauthorizedError.status_code UnauthorizedError.default = 401 ∧
    from_request (some 0) = Except.ok 0 ∧
    tokenIsValid [AuthTokenInner.mk (42 : Nat) true] 0 =
      tokenIsValid [AuthTokenInner.mk (42 : Nat) true] 0 :=
  let t := authToken_from_request_extraction [AuthTokenInner.mk (42 : Nat) true] 0
  ⟨t.1, t.2.1, t.2.2.1, t.2.2.2 0 rfl⟩

/-- C8: every `UnauthorizedError` renders as an HTTP response with status 401
and a JSON string body equal to the error's message; the default error's
message is exactly `"Not authorized"`, and `UnauthorizedError::new(m)`
carries message `m`. -/
theorem unauthorized_error_response_spec (e : UnauthorizedError) (m : String) :
    (UnauthorizedError.error_response e).status = 401 ∧
    (UnauthorizedError.error_response e).body = JsonValue.str e.message ∧
    UnauthorizedError.default.message = "Not authorized" ∧
    (UnauthorizedError.new m).message = m :=
  ⟨rfl, rfl, rfl, rfl⟩

/-! ## Theorems about `PathMatcher` (modelled from the spec) -/

/-- C5: with `invert = false`, `is_protected(P)` is true iff `P` matches some
pattern in the configured set; with `invert = true`, it is true iff `P`
matches no pattern in the set. -/
theorem pathMatcher_is_protected_iff (m : PathMatcher) (path : String) :
    (m.invert = false →
      (m.is_protected path = true ↔
        ∃ p ∈ m.patterns, patternMatches p path = true)) ∧
    (m.invert = true →
      (m.is_protected path = true ↔
        ∀ p ∈ m.patterns, patternMatches p path = false)) := by
  constructor
  · intro h
    simp [PathMatcher.is_protected, h, List.any_eq_true]
  · intro h
    simp [PathMatcher.is_protected, h, Bool.not_eq_true', List.any_eq_false]

/-- C5 witness: the integration tests' matcher
`PathMatcher::new(["/login", "/unsecure/*"], true)` protects
`"/secured-route"` (it matches no listed pattern). -/
theorem pathMatcher_is_protected_iff_witness :
    (PathMatcher.mk ["/login", "/unsecure/*"] true).is_protected
      "/secured-route" = true :=
  ((pathMatcher_is_protected_iff
      (PathMatcher.mk ["/login", "/unsecure/*"] true) "/secured-route").2
    rfl).mpr (by decide)

end Authfix
